import Mathlib

/-!
# Verification of the drug-normalizer core (`src/lib/rxnorm-client.ts`, `csv-processor.ts`)

A shallow embedding of the lookup client, the batch normalizer and the CSV
join step.  The remote service is modelled by an *oracle*: a function from the
attempt number (1-based, as in the source's retry loop) to the outcome of that
attempt.  Each outcome is either a parsed response body, a non-2xx HTTP status,
a timeout, or a transport error; this covers every behaviour the TypeScript
code can observe through `fetch`.  Stateful effects (sleeps, progress
callbacks, attempts performed) are made explicit as traces so that the pacing
and retry claims become statements about pure values.
-/

namespace DrugNormalizer

/-- Configuration record (`RxNormConfig` in `types.ts`). -/
structure RxNormConfig where
  baseUrl : String
  timeout : Nat
  retryAttempts : Nat
  retryDelay : Nat
deriving Repr, DecidableEq

/-- The constant `DEFAULT_RXNORM_CONFIG` from `types.ts`. -/
def DEFAULT_RXNORM_CONFIG : RxNormConfig :=
  { baseUrl := "https://rxnav.nlm.nih.gov/REST"
    timeout := 10000
    retryAttempts := 3
    retryDelay := 1000 }

/-- The custom error class `RxNormAPIError` (message plus optional
classification code, HTTP status and drug name). -/
structure RxNormAPIError where
  message : String
  code : Option String := none
  statusCode : Option Nat := none
  drugName : Option String := none
deriving Repr, DecidableEq

/-- A caught JavaScript error: either an `RxNormAPIError` or any other
error, of which the code only ever reads the message. -/
inductive JSError where
  | rxnorm (e : RxNormAPIError)
  | other (message : String)
deriving Repr, DecidableEq

/-- Reading `error.message` on a caught error. -/
def JSError.message : JSError → String
  | .rxnorm e => e.message
  | .other m => m

/-- The 4xx guard of `fetchWithRetry` (line 90-97): the caught error is an
`RxNormAPIError` whose `statusCode` is set (truthy) and lies in [400, 500). -/
def JSError.isClient4xx : JSError → Bool
  | .rxnorm e =>
      match e.statusCode with
      | some s => decide (s ≠ 0) && decide (400 ≤ s) && decide (s < 500)
      | none => false
  | .other _ => false

/-- The error object rethrown by the 4xx guard (always an `RxNormAPIError`
there; the `other` case is never reached under `isClient4xx = true`). -/
def JSError.toRxError : JSError → RxNormAPIError
  | .rxnorm e => e
  | .other m => { message := m }

/-- Outcome of one `fetchWithTimeout` attempt, as observable by
`fetchWithRetry`.  `success` carries the response body handed to
`response.json()` later (an `Except String β` models a body that parses to
`β` or makes `json()` throw with the given stringification). -/
inductive AttemptOutcome (β : Type) where
  | success (body : β)
  | httpFailure (status : Nat) (statusText : String)
  | timeout
  | networkError (message : String)
deriving Repr, DecidableEq

/-- An attempt as `fetchWithRetry` sees it after the `response.ok` check
(lines 75-83) and the timeout translation in `fetchWithTimeout`
(lines 52-60): a body, or a thrown error. -/
def AttemptOutcome.toResult (timeoutMs : Nat) : AttemptOutcome β → Except JSError β
  | .success b => .ok b
  | .httpFailure status statusText =>
      .error (.rxnorm { message := s!"HTTP {status}: {statusText}"
                        code := some "HTTP_ERROR"
                        statusCode := some status })
  | .timeout =>
      .error (.rxnorm { message := s!"Request timeout after {timeoutMs}ms"
                        code := some "TIMEOUT" })
  | .networkError m => .error (.other m)

/-- Attempt succeeded (response arrived with an ok status). -/
def AttemptOutcome.isSuccess : AttemptOutcome β → Bool
  | .success _ => true
  | _ => false

/-- Attempt failed with an HTTP status the retry loop refuses to retry. -/
def AttemptOutcome.isClientHttpFailure : AttemptOutcome β → Bool
  | .httpFailure status _ =>
      decide (status ≠ 0) && decide (400 ≤ status) && decide (status < 500)
  | _ => false

/-- Attempt failed in a way the retry loop retries: any failure that is not
a truthy 4xx `RxNormAPIError` (5xx, network error, timeout). -/
def AttemptOutcome.isRetryableFailure (o : AttemptOutcome β) : Bool :=
  !o.isSuccess && !o.isClientHttpFailure

/-- JavaScript's `String.prototype.trim`: strip leading and trailing
whitespace.  Written over the character list so that it evaluates by plain
kernel reduction (core `String.trim` recurses on byte positions through
well-founded recursion and does not reduce). -/
def jsTrim (s : String) : String :=
  String.mk (((s.data.dropWhile Char.isWhitespace).reverse.dropWhile
    Char.isWhitespace).reverse)

/-- Result of a whole `fetchWithRetry` call together with its observable
trace: how many attempts were started and which sleeps were performed, in
order. -/
structure RetryTrace (β : Type) where
  result : Except RxNormAPIError β
  attemptsMade : Nat
  sleeps : List Nat
deriving Repr

/-- The text of `lastError?.message` (line 107): `"undefined"` when no attempt ran. -/
def lastErrorMessage : Option JSError → String
  | none => "undefined"
  | some e => e.message

/-- The `MAX_RETRIES_EXCEEDED` error thrown after the loop (lines 106-109). -/
def maxRetriesError (retryAttempts : Nat) (lastError : Option JSError) : RxNormAPIError :=
  let lastMessage := lastErrorMessage lastError
  { message := s!"Failed after {retryAttempts} attempts: {lastMessage}"
    code := some "MAX_RETRIES_EXCEEDED" }

/-- The loop body of `fetchWithRetry` (lines 73-104).  `fuel` counts the
iterations still allowed by the loop bound `attempt ≤ cfg.retryAttempts`, so
the invariant is `fuel = cfg.retryAttempts + 1 - attempt`; in particular the
source's sleep guard `attempt < cfg.retryAttempts` is `fuel ≥ 2` at entry,
i.e. a nonzero remaining fuel at the recursive call. -/
def retryGo (cfg : RxNormConfig) (outcomes : Nat → AttemptOutcome β) :
    Nat → Nat → Option JSError → RetryTrace β
  | 0, attempt, lastError =>
      { result := .error (maxRetriesError cfg.retryAttempts lastError)
        attemptsMade := attempt - 1
        sleeps := [] }
  | fuel + 1, attempt, _ =>
      match (outcomes attempt).toResult cfg.timeout with
      | .ok b => { result := .ok b, attemptsMade := attempt, sleeps := [] }
      | .error e =>
          if e.isClient4xx then
            { result := .error e.toRxError, attemptsMade := attempt, sleeps := [] }
          else
            let rest := retryGo cfg outcomes fuel (attempt + 1) (some e)
            { result := rest.result
              attemptsMade := rest.attemptsMade
              sleeps :=
                (if fuel = 0 then [] else [cfg.retryDelay * attempt]) ++ rest.sleeps }

/-- Function `fetchWithRetry` (lines 67-110): run the loop from attempt 1 with no
last error recorded. -/
def fetchWithRetry (cfg : RxNormConfig) (outcomes : Nat → AttemptOutcome β) :
    RetryTrace β :=
  retryGo cfg outcomes cfg.retryAttempts 1 none

/-! ## Parsed response bodies (`types.ts`)

`Option` on a field models a JSON document in which the field may be null or
missing (the code guards each access with a falsiness check); an `Option`
around an array distinguishes a missing array from an empty one, since in
JavaScript an empty array is truthy while `undefined` is falsy. -/

/-- One entry of `approximateGroup.candidate`. -/
structure RxNormCandidate where
  rxcui : String
  rxaui : Option String := none
  score : String := ""
  rank : String := ""
  name : Option String := none
  source : Option String := none
deriving Repr, DecidableEq

/-- The `approximateGroup` object of the approximate-term response. -/
structure ApproximateGroup where
  inputTerm : Option String := none
  candidate : Option (List RxNormCandidate) := none
deriving Repr, DecidableEq

/-- Response of `approximateTerm.json`. -/
structure RxNormApproximateResponse where
  approximateGroup : Option ApproximateGroup := none
deriving Repr, DecidableEq

/-- One entry of `conceptProperties`. -/
structure RxNormConceptProperty where
  rxcui : String := ""
  name : String
  synonym : Option String := none
  tty : String := ""
  language : String := ""
  suppress : String := ""
  umlscui : Option String := none
deriving Repr, DecidableEq

/-- One entry of `relatedGroup.conceptGroup`. -/
structure RxNormConceptGroup where
  tty : String
  conceptProperties : Option (List RxNormConceptProperty) := none
deriving Repr, DecidableEq

/-- The `relatedGroup` object of the related-concepts response. -/
structure RelatedGroup where
  rxcui : Option String := none
  conceptGroup : Option (List RxNormConceptGroup) := none
deriving Repr, DecidableEq

/-- Response of `rxcui/{id}/related.json?tty=IN`. -/
structure RxNormRelatedResponse where
  relatedGroup : Option RelatedGroup := none
deriving Repr, DecidableEq

/-- Candidate extraction in `searchDrug` (lines 140-150): `null` when the
group or the candidate array is missing or empty, else the top candidate's
`rxcui`. -/
def approximateExtract (data : RxNormApproximateResponse) : Option String :=
  match data.approximateGroup with
  | none => none
  | some group =>
      match group.candidate with
      | none => none
      | some [] => none
      | some (c :: _) => some c.rxcui

/-- Ingredient extraction in `getGenericName` (lines 192-215): find the
concept group tagged `IN`; `null` when the related group, the group list,
the `IN` group or its properties are missing or empty. -/
def relatedExtract (data : RxNormRelatedResponse) : Option String :=
  match data.relatedGroup with
  | none => none
  | some rg =>
      match rg.conceptGroup with
      | none => none
      | some [] => none
      | some groups =>
          match groups.find? (fun g => g.tty == "IN") with
          | none => none
          | some ig =>
              match ig.conceptProperties with
              | none => none
              | some [] => none
              | some (p :: _) => some p.name

/-! ## The two lookup operations -/

/-- Function `searchDrug` (lines 125-163).  The oracle provides, per attempt, either a
body that parses to an `RxNormApproximateResponse` (`Except.ok`) or one that
makes `response.json()` throw (`Except.error`, carrying the stringification
used in `Unexpected error searching for drug: ...`). -/
def searchDrug (drugName : String) (cfg : RxNormConfig)
    (outcomes : Nat → AttemptOutcome (Except String RxNormApproximateResponse)) :
    RetryTrace (Option String) :=
  if drugName = "" ∨ jsTrim drugName = "" then
    { result := .error { message := "Drug name cannot be empty", code := some "INVALID_INPUT" }
      attemptsMade := 0
      sleeps := [] }
  else
    let t := fetchWithRetry cfg outcomes
    match t.result with
    | .error e =>
        { result := .error { e with drugName := some drugName }
          attemptsMade := t.attemptsMade
          sleeps := t.sleeps }
    | .ok (.error jsonError) =>
        { result := .error { message := s!"Unexpected error searching for drug: {jsonError}"
                             code := some "UNKNOWN_ERROR"
                             drugName := some drugName }
          attemptsMade := t.attemptsMade
          sleeps := t.sleeps }
    | .ok (.ok data) =>
        { result := .ok (approximateExtract data)
          attemptsMade := t.attemptsMade
          sleeps := t.sleeps }

/-- Function `getGenericName` (lines 178-225).  Same oracle convention as
`searchDrug`; rethrown `RxNormAPIError`s are not annotated with a drug
name here. -/
def getGenericName (rxcui : String) (cfg : RxNormConfig)
    (outcomes : Nat → AttemptOutcome (Except String RxNormRelatedResponse)) :
    RetryTrace (Option String) :=
  if rxcui = "" ∨ jsTrim rxcui = "" then
    { result := .error { message := "RxCUI cannot be empty", code := some "INVALID_INPUT" }
      attemptsMade := 0
      sleeps := [] }
  else
    let t := fetchWithRetry cfg outcomes
    match t.result with
    | .error e =>
        { result := .error e
          attemptsMade := t.attemptsMade
          sleeps := t.sleeps }
    | .ok (.error jsonError) =>
        { result := .error { message := s!"Unexpected error getting generic name: {jsonError}"
                             code := some "UNKNOWN_ERROR" }
          attemptsMade := t.attemptsMade
          sleeps := t.sleeps }
    | .ok (.ok data) =>
        { result := .ok (relatedExtract data)
          attemptsMade := t.attemptsMade
          sleeps := t.sleeps }

/-! ## Normalization -/

/-- The constant `NORMALIZATION_STATUS.SUCCESS` from `types.ts`. -/
def NORMALIZATION_STATUS.SUCCESS : String := "success"

/-- The constant `NORMALIZATION_STATUS.NOT_FOUND` from `types.ts`. -/
def NORMALIZATION_STATUS.NOT_FOUND : String := "not_found"

/-- The constant `NORMALIZATION_STATUS.ERROR` from `types.ts`. -/
def NORMALIZATION_STATUS.ERROR : String := "error"

/-- The record `NormalizationResult` from `types.ts`. -/
structure NormalizationResult where
  originalName : String
  genericName : Option String
  rxcui : Option String
  status : String
  errorMessage : Option String := none
deriving Repr, DecidableEq

/-- The remote environment one `normalizeDrugName` call runs against: one
attempt oracle for the approximate-term request and one for the
related-concepts request. -/
structure RemoteEnv where
  search : Nat → AttemptOutcome (Except String RxNormApproximateResponse)
  related : Nat → AttemptOutcome (Except String RxNormRelatedResponse)

/-- Function `normalizeDrugName` (lines 247-303).  The `rxcui = ""` and
`genericName = ""` tests reproduce the JavaScript falsiness checks
`if (!rxcui)` and `if (!genericName)` on strings.  Both lookups only ever
throw `RxNormAPIError`s, so only the first catch branch (lines 285-293) is
reachable. -/
def normalizeDrugName (drugName : String) (cfg : RxNormConfig) (env : RemoteEnv) :
    NormalizationResult :=
  match (searchDrug drugName cfg env.search).result with
  | .error e =>
      { originalName := drugName, genericName := none, rxcui := none
        status := NORMALIZATION_STATUS.ERROR, errorMessage := some e.message }
  | .ok none =>
      { originalName := drugName, genericName := none, rxcui := none
        status := NORMALIZATION_STATUS.NOT_FOUND
        errorMessage := some "Drug not found in RxNorm database" }
  | .ok (some rxcui) =>
      if rxcui = "" then
        { originalName := drugName, genericName := none, rxcui := none
          status := NORMALIZATION_STATUS.NOT_FOUND
          errorMessage := some "Drug not found in RxNorm database" }
      else
        match (getGenericName rxcui cfg env.related).result with
        | .error e =>
            { originalName := drugName, genericName := none, rxcui := none
              status := NORMALIZATION_STATUS.ERROR, errorMessage := some e.message }
        | .ok none =>
            { originalName := drugName, genericName := none, rxcui := some rxcui
              status := NORMALIZATION_STATUS.NOT_FOUND
              errorMessage := some "Generic name not found for this drug" }
        | .ok (some genericName) =>
            if genericName = "" then
              { originalName := drugName, genericName := none, rxcui := some rxcui
                status := NORMALIZATION_STATUS.NOT_FOUND
                errorMessage := some "Generic name not found for this drug" }
            else
              { originalName := drugName, genericName := some genericName, rxcui := some rxcui
                status := NORMALIZATION_STATUS.SUCCESS }

/-! ## Batch normalization

The loop body of `normalizeDrugNameBatch` emits, per item, a progress
callback invocation, one result, and — between two items — one sleep.  The
whole execution is recorded as an ordered event list, from which the result
list, the progress invocations and the pauses are projected. -/

/-- One observable event of a batch run. -/
inductive BatchEvent where
  | progress (completed total : Nat) (current : String)
  | item (result : NormalizationResult)
  | pause (ms : Nat)
deriving Repr, DecidableEq

/-- The guarded 100 ms sleep (lines 341-343): `i < drugNames.length - 1`
holds exactly when elements remain after the current one. -/
def pauseIfMore : List String → List BatchEvent
  | [] => []
  | _ :: _ => [BatchEvent.pause 100]

/-- The loop of `normalizeDrugNameBatch` (lines 329-344): at index `i`,
announce progress `(i, total, name)`, normalize, and sleep 100 ms unless
this is the last element.  `envs i` is the remote environment the `i`-th
call runs against. -/
def batchGo (cfg : RxNormConfig) (envs : Nat → RemoteEnv) (total : Nat) :
    List String → Nat → List BatchEvent
  | [], _ => []
  | name :: rest, i =>
      BatchEvent.progress i total name ::
      BatchEvent.item (normalizeDrugName name cfg (envs i)) ::
      (pauseIfMore rest ++ batchGo cfg envs total rest (i + 1))

/-- Full event trace of `normalizeDrugNameBatch` (lines 321-352): the loop
followed by the terminal `onProgress(total, total, '')` (lines 347-349). -/
def batchEvents (drugNames : List String) (cfg : RxNormConfig) (envs : Nat → RemoteEnv) :
    List BatchEvent :=
  batchGo cfg envs drugNames.length drugNames 0 ++
    [BatchEvent.progress drugNames.length drugNames.length ""]

/-- Projection keeping the results. -/
def eventResult : BatchEvent → Option NormalizationResult
  | .item r => some r
  | _ => none

/-- Projection keeping the progress invocations `(completed, total, current)`. -/
def eventProgress : BatchEvent → Option (Nat × Nat × String)
  | .progress completed total current => some (completed, total, current)
  | _ => none

/-- Projection keeping the sleep durations. -/
def eventPause : BatchEvent → Option Nat
  | .pause ms => some ms
  | _ => none

/-- The value returned by `normalizeDrugNameBatch`: the results pushed by
the loop, in order. -/
def normalizeDrugNameBatch (drugNames : List String) (cfg : RxNormConfig)
    (envs : Nat → RemoteEnv) : List NormalizationResult :=
  (batchEvents drugNames cfg envs).filterMap eventResult

/-- The `onProgress` invocations of a batch run, in order. -/
def batchProgressCalls (drugNames : List String) (cfg : RxNormConfig)
    (envs : Nat → RemoteEnv) : List (Nat × Nat × String) :=
  (batchEvents drugNames cfg envs).filterMap eventProgress

/-- The sleeps of a batch run, in order. -/
def batchPauses (drugNames : List String) (cfg : RxNormConfig)
    (envs : Nat → RemoteEnv) : List Nat :=
  (batchEvents drugNames cfg envs).filterMap eventPause

/-- Specification-side description of one loop iteration (spec §4.2): for
the element at absolute index `p.1`, a progress announcement, the item's
result, and — when the element is not the last one, i.e. `p.1 + 1 < total`
— a single 100 ms pause before the next iteration. -/
def itemBlock (cfg : RxNormConfig) (envs : Nat → RemoteEnv) (total : Nat)
    (p : Nat × String) : List BatchEvent :=
  [BatchEvent.progress p.1 total p.2,
   BatchEvent.item (normalizeDrugName p.2 cfg (envs p.1))] ++
    (if p.1 + 1 < total then [BatchEvent.pause 100] else [])

/-! ## CSV join step (`csv-processor.ts`) -/

/-- A CSV cell: `string | number | null` (`CSVRow` values in `types.ts`). -/
inductive CSVValue where
  | str (s : String)
  | num (n : Int)
  | null
deriving Repr, DecidableEq

/-- A parsed CSV row: a possibly-missing mapping from column name to cell, `none`
meaning the key is absent (`undefined`). -/
def CSVRow : Type := String → Option CSVValue

/-- The constant `GENERIC_NAME_COLUMN` from `types.ts`. -/
def GENERIC_NAME_COLUMN : String := "GENERIC_NAME"

/-- The conversion `String(row[columnName] || '')` (line 628): `null`, `undefined`, the
empty string and the number `0` are falsy and give `''`; other numbers are
stringified in decimal. -/
def csvValueToString : Option CSVValue → String
  | none => ""
  | some .null => ""
  | some (.str s) => s
  | some (.num n) => if n = 0 then "" else toString n

/-- The lookup `genericNames.get(drugName) || 'NOT_FOUND'` (line 629): the sentinel is
used when the key is absent, and also when the stored value is the empty
string (falsy). -/
def lookupGeneric (genericNames : String → Option String) (drugName : String) : String :=
  match genericNames drugName with
  | none => "NOT_FOUND"
  | some g => if g = "" then "NOT_FOUND" else g

/-- Function `addGenericNameColumn` (lines 622-636): per row, read the designated
column, trim its stringification, look it up in the map, and emit the row
with the `GENERIC_NAME` field set (the object spread keeps every other
field). -/
def addGenericNameColumn (originalData : List CSVRow) (columnName : String)
    (genericNames : String → Option String) : List CSVRow :=
  originalData.map (fun row =>
    let drugName := jsTrim (csvValueToString (row columnName))
    let genericName := lookupGeneric genericNames drugName
    fun key =>
      if key = GENERIC_NAME_COLUMN then some (.str genericName) else row key)

/-! ## Concrete environments used to instantiate the theorems -/

/-- Attempt oracle: every approximate-term request succeeds with one
candidate, `rxcui = "202433"`. -/
def searchFound : Nat → AttemptOutcome (Except String RxNormApproximateResponse) :=
  fun _ => .success (.ok { approximateGroup := some { candidate := some [{ rxcui := "202433" }] } })

/-- Attempt oracle: every related-concepts request succeeds with one `IN`
group whose first property is named `acetaminophen`. -/
def ingredientGroupIN : RxNormConceptGroup :=
  { tty := "IN", conceptProperties := some [{ name := "acetaminophen" }] }

def relatedFound : Nat → AttemptOutcome (Except String RxNormRelatedResponse) :=
  fun _ => .success (.ok { relatedGroup := some { conceptGroup := some [ingredientGroupIN] } })

/-- Attempt oracle: approximate-term request succeeds with no group. -/
def searchEmpty : Nat → AttemptOutcome (Except String RxNormApproximateResponse) :=
  fun _ => .success (.ok { approximateGroup := none })

/-- Attempt oracle: related-concepts request succeeds with no group. -/
def relatedEmpty : Nat → AttemptOutcome (Except String RxNormRelatedResponse) :=
  fun _ => .success (.ok { relatedGroup := none })

/-- Both lookups succeed. -/
def goodEnv : RemoteEnv := { search := searchFound, related := relatedFound }

/-- The identifier lookup finds no candidate. -/
def notFoundEnv : RemoteEnv := { search := searchEmpty, related := relatedFound }

/-- The identifier is found but the ingredient lookup yields null. -/
def ingredientMissingEnv : RemoteEnv := { search := searchFound, related := relatedEmpty }

/-- Every remote attempt times out. -/
def timeoutEnv : RemoteEnv := { search := fun _ => .timeout, related := fun _ => .timeout }

/-- A row whose `DRUG` column holds a blank string. -/
def rowBlankDrug : CSVRow := fun key => if key = "DRUG" then some (.str " ") else none

/-- A generic-name map that (unusually, but permitted by the claim's
quantifier) has an entry for the empty-string key. -/
def emptyKeyMap : String → Option String := fun s => if s = "" then some "phantom" else none

/-- The default row used with `List.getD` when indexing row lists. -/
def emptyRow : CSVRow := fun _ => none

/-- Attempt oracle over `Nat` bodies: every attempt is a 404 response. -/
def http404Outcomes : Nat → AttemptOutcome Nat :=
  fun _ => .httpFailure 404 "Not Found"

/-- Attempt oracle over `Nat` bodies: a 500 on the first attempt, then
success. -/
def recoverOutcomes : Nat → AttemptOutcome Nat :=
  fun j => if j = 1 then .httpFailure 500 "Internal Server Error" else .success 7

/-! # Lemmas about the retry loop -/

/-- A retryable failure turns into a thrown error that does not pass the
4xx guard. -/
theorem retryable_toResult {β : Type} (o : AttemptOutcome β) (t : Nat)
    (h : o.isRetryableFailure = true) :
    ∃ e, o.toResult t = .error e ∧ e.isClient4xx = false := by
  cases o with
  | success b =>
      simp [AttemptOutcome.isRetryableFailure, AttemptOutcome.isSuccess] at h
  | httpFailure status statusText =>
      refine ⟨_, rfl, ?_⟩
      simp [AttemptOutcome.isRetryableFailure, AttemptOutcome.isSuccess,
        AttemptOutcome.isClientHttpFailure] at h
      simp [JSError.isClient4xx]
      omega
  | timeout =>
      exact ⟨_, rfl, rfl⟩
  | networkError m =>
      exact ⟨_, rfl, rfl⟩

/-- The loop never starts more attempts than the remaining fuel allows. -/
theorem retryGo_attemptsMade_le {β : Type} (cfg : RxNormConfig)
    (outcomes : Nat → AttemptOutcome β) (fuel attempt : Nat) (lastError : Option JSError) :
    (retryGo cfg outcomes fuel attempt lastError).attemptsMade ≤ attempt - 1 + fuel := by
  induction fuel generalizing attempt lastError with
  | zero => simp [retryGo]
  | succ f ih =>
      unfold retryGo
      split
      · simp; omega
      · split
        · simp; omega
        · dsimp only
          exact le_trans (ih (attempt + 1) _) (by omega)

/-- With fuel left, the loop starts at least the current attempt. -/
theorem retryGo_le_attemptsMade {β : Type} (cfg : RxNormConfig)
    (outcomes : Nat → AttemptOutcome β) (fuel attempt : Nat) (lastError : Option JSError)
    (hfuel : 1 ≤ fuel) :
    attempt ≤ (retryGo cfg outcomes fuel attempt lastError).attemptsMade := by
  induction fuel generalizing attempt lastError with
  | zero => omega
  | succ f ih =>
      unfold retryGo
      split
      · simp
      · split
        · simp
        · dsimp only
          rcases Nat.eq_zero_or_pos f with hf | hf
          · subst hf
            simp [retryGo]
          · exact le_trans (by omega) (ih (attempt + 1) _ hf)

/-- Sleep trace of the loop: one sleep of `retryDelay × k` after every
attempt `k` that was followed by another attempt, and none after the last
attempt started. -/
theorem retryGo_sleeps {β : Type} (cfg : RxNormConfig)
    (outcomes : Nat → AttemptOutcome β) (fuel attempt : Nat) (lastError : Option JSError) :
    (retryGo cfg outcomes fuel attempt lastError).sleeps =
      (List.range' attempt ((retryGo cfg outcomes fuel attempt lastError).attemptsMade - attempt)).map
        (fun k => cfg.retryDelay * k) := by
  induction fuel generalizing attempt lastError with
  | zero => simp [retryGo]
  | succ f ih =>
      unfold retryGo
      split
      · simp
      · split
        · simp
        · rename_i x e heq hnc
          dsimp only
          rcases Nat.eq_zero_or_pos f with hf | hf
          · subst hf
            simp [retryGo]
          · have hle := retryGo_le_attemptsMade cfg outcomes f (attempt + 1) (some e) hf
            have hsub : (retryGo cfg outcomes f (attempt + 1) (some e)).attemptsMade - attempt =
                ((retryGo cfg outcomes f (attempt + 1) (some e)).attemptsMade - (attempt + 1)) + 1 := by
              omega
            have hf0 : f ≠ 0 := by omega
            simp only [hf0, if_false]
            rw [hsub, List.range'_succ, List.map_cons]
            simpa using ih (attempt + 1) (some e)

/-- When every allowed attempt fails retryably, the loop exhausts its fuel
and fails with the `MAX_RETRIES_EXCEEDED` error wrapping the error of the
last attempt. -/
theorem retryGo_allFail {β : Type} (cfg : RxNormConfig)
    (outcomes : Nat → AttemptOutcome β) (fuel attempt : Nat) (lastError : Option JSError)
    (hattempt : 1 ≤ attempt) (hfuel : 1 ≤ fuel)
    (hfail : ∀ j, attempt ≤ j → j < attempt + fuel → (outcomes j).isRetryableFailure = true)
    (lastE : JSError)
    (hlast : (outcomes (attempt + fuel - 1)).toResult cfg.timeout = .error lastE) :
    (retryGo cfg outcomes fuel attempt lastError).result =
        .error (maxRetriesError cfg.retryAttempts (some lastE)) ∧
    (retryGo cfg outcomes fuel attempt lastError).attemptsMade = attempt - 1 + fuel := by
  induction fuel generalizing attempt lastError with
  | zero => omega
  | succ f ih =>
      have hcur : (outcomes attempt).isRetryableFailure = true :=
        hfail attempt (le_refl attempt) (by omega)
      obtain ⟨e, he, hnc⟩ := retryable_toResult (outcomes attempt) cfg.timeout hcur
      unfold retryGo
      rw [he]
      simp only [hnc, Bool.false_eq_true, if_false]
      rcases Nat.eq_zero_or_pos f with hf | hf
      · subst hf
        have : lastE = e := by
          have : attempt + 1 - 1 = attempt := by omega
          rw [this] at hlast
          rw [he] at hlast
          exact (Except.error.inj hlast).symm
        subst this
        simp [retryGo]
        omega
      · have step := ih (attempt + 1) (some e) (by omega) hf
          (fun j hj1 hj2 => hfail j (by omega) (by omega))
          (by
            have : attempt + 1 + f - 1 = attempt + (f + 1) - 1 := by omega
            rw [this]
            exact hlast)
        refine ⟨step.1, ?_⟩
        rw [step.2]
        omega

/-- If attempts `attempt .. k-1` fail retryably and attempt `k` succeeds
(within the fuel), the loop returns that success after exactly `k`
attempts. -/
theorem retryGo_success_at {β : Type} (cfg : RxNormConfig)
    (outcomes : Nat → AttemptOutcome β) (fuel attempt : Nat) (lastError : Option JSError)
    (k : Nat) (h1 : attempt ≤ k) (h2 : k < attempt + fuel)
    (hpre : ∀ j, attempt ≤ j → j < k → (outcomes j).isRetryableFailure = true)
    (b : β) (hk : outcomes k = .success b) :
    (retryGo cfg outcomes fuel attempt lastError).result = .ok b ∧
    (retryGo cfg outcomes fuel attempt lastError).attemptsMade = k := by
  induction fuel generalizing attempt lastError with
  | zero => omega
  | succ f ih =>
      rcases Nat.eq_or_lt_of_le h1 with rfl | hlt
      · unfold retryGo
        rw [hk]
        exact ⟨rfl, rfl⟩
      · have hcur : (outcomes attempt).isRetryableFailure = true :=
          hpre attempt (le_refl attempt) hlt
        obtain ⟨e, he, hnc⟩ := retryable_toResult (outcomes attempt) cfg.timeout hcur
        unfold retryGo
        rw [he]
        simp only [hnc, Bool.false_eq_true, if_false]
        exact ih (attempt + 1) (some e) hlt (by omega)
          (fun j hj1 hj2 => hpre j (by omega) hj2)

/-- If attempts `attempt .. k-1` fail retryably and attempt `k` fails with
a truthy 4xx status (within the fuel), the loop stops at attempt `k` and
rethrows that HTTP error without retrying it. -/
theorem retryGo_clientError_at {β : Type} (cfg : RxNormConfig)
    (outcomes : Nat → AttemptOutcome β) (fuel attempt : Nat) (lastError : Option JSError)
    (k : Nat) (h1 : attempt ≤ k) (h2 : k < attempt + fuel)
    (hpre : ∀ j, attempt ≤ j → j < k → (outcomes j).isRetryableFailure = true)
    (status : Nat) (statusText : String)
    (hk : outcomes k = .httpFailure status statusText)
    (hs1 : 400 ≤ status) (hs2 : status < 500) :
    (retryGo cfg outcomes fuel attempt lastError).result =
        .error { message := s!"HTTP {status}: {statusText}"
                 code := some "HTTP_ERROR"
                 statusCode := some status } ∧
    (retryGo cfg outcomes fuel attempt lastError).attemptsMade = k := by
  induction fuel generalizing attempt lastError with
  | zero => omega
  | succ f ih =>
      rcases Nat.eq_or_lt_of_le h1 with rfl | hlt
      · unfold retryGo
        rw [hk]
        simp only [AttemptOutcome.toResult]
        split
        · exact ⟨rfl, rfl⟩
        · rename_i hno
          exfalso
          apply hno
          simp [JSError.isClient4xx]
          omega
      · have hcur : (outcomes attempt).isRetryableFailure = true :=
          hpre attempt (le_refl attempt) hlt
        obtain ⟨e, he, hnc⟩ := retryable_toResult (outcomes attempt) cfg.timeout hcur
        unfold retryGo
        rw [he]
        simp only [hnc, Bool.false_eq_true, if_false]
        exact ih (attempt + 1) (some e) hlt (by omega)
          (fun j hj1 hj2 => hpre j (by omega) hj2)

/-! # Lemmas about normalization and the batch loop -/

/-- Every branch of `normalizeDrugName` copies the input into
`originalName`. -/
theorem normalizeDrugName_originalName (n : String) (cfg : RxNormConfig) (env : RemoteEnv) :
    (normalizeDrugName n cfg env).originalName = n := by
  unfold normalizeDrugName
  repeat first | rfl | split

/-- The guarded sleep contributes no result events. -/
theorem pauseIfMore_filterMap_result (rest : List String) :
    (pauseIfMore rest).filterMap eventResult = [] := by
  cases rest <;> rfl

/-- The guarded sleep contributes no progress events. -/
theorem pauseIfMore_filterMap_progress (rest : List String) :
    (pauseIfMore rest).filterMap eventProgress = [] := by
  cases rest <;> rfl

/-- The guarded sleep contributes one 100 ms pause exactly when elements
remain. -/
theorem pauseIfMore_filterMap_pause (rest : List String) :
    (pauseIfMore rest).filterMap eventPause = if rest.isEmpty then [] else [100] := by
  cases rest <;> rfl

/-- The loop produces one result per input element, in order, each carrying
the corresponding input as its `originalName`. -/
theorem batchGo_results_originalName (cfg : RxNormConfig) (envs : Nat → RemoteEnv)
    (total : Nat) (names : List String) (i : Nat) :
    ((batchGo cfg envs total names i).filterMap eventResult).map
        (fun r => r.originalName) = names := by
  induction names generalizing i with
  | nil => rfl
  | cons n rest ih =>
      simp only [batchGo, List.filterMap_cons, eventResult, List.filterMap_append,
        pauseIfMore_filterMap_result, List.nil_append, List.map_cons,
        normalizeDrugName_originalName, ih]

/-- The completed counters announced by the loop are `i, i+1, …`
— one per element, in order. -/
theorem batchGo_progress_fst (cfg : RxNormConfig) (envs : Nat → RemoteEnv)
    (total : Nat) (names : List String) (i : Nat) :
    ((batchGo cfg envs total names i).filterMap eventProgress).map
        (fun p => p.1) = List.range' i names.length := by
  induction names generalizing i with
  | nil => rfl
  | cons n rest ih =>
      simp only [batchGo, List.filterMap_cons, eventProgress, List.filterMap_append,
        pauseIfMore_filterMap_progress, List.nil_append, List.map_cons, ih,
        List.length_cons, List.range'_succ]

/-- The loop pauses exactly once between consecutive elements and never
after the last one. -/
theorem batchGo_pauses (cfg : RxNormConfig) (envs : Nat → RemoteEnv)
    (total : Nat) (names : List String) (i : Nat) :
    (batchGo cfg envs total names i).filterMap eventPause =
      List.replicate (names.length - 1) 100 := by
  induction names generalizing i with
  | nil => rfl
  | cons n rest ih =>
      simp only [batchGo, List.filterMap_cons, eventPause, List.filterMap_append,
        pauseIfMore_filterMap_pause, ih]
      cases rest with
      | nil => rfl
      | cons m rest' => simp [List.replicate_succ]

/-- Closed form of the loop: the concatenation of the per-item blocks, the
pause of block `p` present exactly when `p` is not the last element. -/
theorem batchGo_eq_blocks (cfg : RxNormConfig) (envs : Nat → RemoteEnv)
    (names : List String) (i total : Nat) (h : i + names.length = total) :
    batchGo cfg envs total names i =
      ((List.enumFrom i names).map (itemBlock cfg envs total)).flatten := by
  induction names generalizing i with
  | nil => rfl
  | cons n rest ih =>
      simp only [batchGo, List.enumFrom, List.map_cons, List.flatten_cons, itemBlock]
      have hrest : (i + 1) + rest.length = total := by
        simp only [List.length_cons] at h
        omega
      rw [ih (i + 1) hrest]
      cases rest with
      | nil =>
          have : ¬ (i + 1 < total) := by
            simp only [List.length_cons, List.length_nil] at h
            omega
          simp [pauseIfMore, this]
      | cons m rest' =>
          have : i + 1 < total := by
            simp only [List.length_cons] at h
            omega
          simp [pauseIfMore, this]

/-- The returned result list is the loop's item trace (the terminal
progress event contributes no result). -/
theorem normalizeDrugNameBatch_eq (names : List String) (cfg : RxNormConfig)
    (envs : Nat → RemoteEnv) :
    normalizeDrugNameBatch names cfg envs =
      (batchGo cfg envs names.length names 0).filterMap eventResult := by
  unfold normalizeDrugNameBatch batchEvents
  rw [List.filterMap_append]
  simp [eventResult]

/-- The progress trace is the loop's announcements followed by the terminal
`(N, N, "")` call. -/
theorem batchProgressCalls_eq (names : List String) (cfg : RxNormConfig)
    (envs : Nat → RemoteEnv) :
    batchProgressCalls names cfg envs =
      (batchGo cfg envs names.length names 0).filterMap eventProgress ++
        [(names.length, names.length, "")] := by
  unfold batchProgressCalls batchEvents
  rw [List.filterMap_append]
  rfl

/-- Result order: the batch returns the inputs' results in input order. -/
theorem normalizeDrugNameBatch_map_originalName (names : List String)
    (cfg : RxNormConfig) (envs : Nat → RemoteEnv) :
    (normalizeDrugNameBatch names cfg envs).map (fun r => r.originalName) = names := by
  rw [normalizeDrugNameBatch_eq]
  exact batchGo_results_originalName cfg envs names.length names 0

/-- The batch returns exactly one result per input element. -/
theorem normalizeDrugNameBatch_length (names : List String) (cfg : RxNormConfig)
    (envs : Nat → RemoteEnv) :
    (normalizeDrugNameBatch names cfg envs).length = names.length := by
  have h := congrArg List.length (normalizeDrugNameBatch_map_originalName names cfg envs)
  simpa using h

/-! # Claim theorems -/

/-- C1: for every sequence of N input names (duplicates allowed, N = 0
included), `normalizeDrugNameBatch` returns exactly N results in input
order with each result's `originalName` equal to the corresponding input
element, and the progress callback trace has exactly N+1 entries whose
`completed` components are `0, 1, …, N` in order (hence strictly
increasing), the last entry being `(N, N, "")`. -/
theorem C1_batch_order_and_progress (names : List String) (cfg : RxNormConfig)
    (envs : Nat → RemoteEnv) :
    (normalizeDrugNameBatch names cfg envs).length = names.length ∧
    (normalizeDrugNameBatch names cfg envs).map (fun r => r.originalName) = names ∧
    (batchProgressCalls names cfg envs).length = names.length + 1 ∧
    (batchProgressCalls names cfg envs).map (fun p => p.1) =
      List.range (names.length + 1) ∧
    (batchProgressCalls names cfg envs).getLast? =
      some (names.length, names.length, "") := by
  have hp := batchProgressCalls_eq names cfg envs
  have hpfst : (batchProgressCalls names cfg envs).map (fun p => p.1) =
      List.range (names.length + 1) := by
    rw [hp, List.map_append, batchGo_progress_fst]
    simp [List.range_succ, List.range_eq_range']
  have hplen : (batchProgressCalls names cfg envs).length = names.length + 1 := by
    have h := congrArg List.length hpfst
    simpa using h
  refine ⟨normalizeDrugNameBatch_length names cfg envs,
    normalizeDrugNameBatch_map_originalName names cfg envs, hplen, hpfst, ?_⟩
  rw [hp]
  exact List.getLast?_concat _

/-- C8: the batch's event trace is the concatenation of per-item blocks in
which the item at index `i` is followed by exactly one 100 ms pause
precisely when `i` is not the last index (`i + 1 < N`), with no pause
after the final element; accordingly the pause trace is exactly `N - 1`
pauses of 100 ms. -/
theorem C8_inter_item_pacing (names : List String) (cfg : RxNormConfig)
    (envs : Nat → RemoteEnv) :
    batchEvents names cfg envs =
      ((List.enumFrom 0 names).map (itemBlock cfg envs names.length)).flatten ++
        [BatchEvent.progress names.length names.length ""] ∧
    batchPauses names cfg envs = List.replicate (names.length - 1) 100 := by
  constructor
  · unfold batchEvents
    rw [batchGo_eq_blocks cfg envs names 0 names.length (by omega)]
  · unfold batchPauses batchEvents
    rw [List.filterMap_append, batchGo_pauses]
    simp [eventPause]

/-- Branch equations of `normalizeDrugName`, shared by several claims:
the three non-error outcomes, as functions of the two lookup results. -/
theorem normalizeDrugName_branches (name : String) (cfg : RxNormConfig) (env : RemoteEnv) :
    ((searchDrug name cfg env.search).result = .ok none →
        normalizeDrugName name cfg env =
          { originalName := name, genericName := none, rxcui := none
            status := NORMALIZATION_STATUS.NOT_FOUND
            errorMessage := some "Drug not found in RxNorm database" }) ∧
    (∀ rx, (searchDrug name cfg env.search).result = .ok (some rx) → ¬ rx = "" →
        ((getGenericName rx cfg env.related).result = .ok none →
            normalizeDrugName name cfg env =
              { originalName := name, genericName := none, rxcui := some rx
                status := NORMALIZATION_STATUS.NOT_FOUND
                errorMessage := some "Generic name not found for this drug" }) ∧
        (∀ g, (getGenericName rx cfg env.related).result = .ok (some g) → ¬ g = "" →
            normalizeDrugName name cfg env =
              { originalName := name, genericName := some g, rxcui := some rx
                status := NORMALIZATION_STATUS.SUCCESS })) := by
  constructor
  · intro hs
    unfold normalizeDrugName
    rw [hs]
  · intro rx hs hrx
    constructor
    · intro hg
      unfold normalizeDrugName
      rw [hs]
      dsimp only
      rw [if_neg hrx, hg]
    · intro g hg hgne
      unfold normalizeDrugName
      rw [hs]
      dsimp only
      rw [if_neg hrx, hg]
      dsimp only
      rw [if_neg hgne]

/-- C2 counterexample: the claim's quoted error messages are not the ones
the code produces.  When the identifier lookup yields no candidate the
result's message is `"Drug not found in RxNorm database"`, not
`"not found in vocabulary"`; when the ingredient lookup yields null it is
`"Generic name not found for this drug"`, not `"ingredient not found"`. -/
theorem C2_counterexample :
    (normalizeDrugName "xyz-not-a-drug" DEFAULT_RXNORM_CONFIG notFoundEnv).status =
        NORMALIZATION_STATUS.NOT_FOUND ∧
    (normalizeDrugName "xyz-not-a-drug" DEFAULT_RXNORM_CONFIG notFoundEnv).errorMessage =
        some "Drug not found in RxNorm database" ∧
    (normalizeDrugName "xyz-not-a-drug" DEFAULT_RXNORM_CONFIG notFoundEnv).errorMessage ≠
        some "not found in vocabulary" ∧
    (normalizeDrugName "Tylenol" DEFAULT_RXNORM_CONFIG ingredientMissingEnv).status =
        NORMALIZATION_STATUS.NOT_FOUND ∧
    (normalizeDrugName "Tylenol" DEFAULT_RXNORM_CONFIG ingredientMissingEnv).errorMessage =
        some "Generic name not found for this drug" ∧
    (normalizeDrugName "Tylenol" DEFAULT_RXNORM_CONFIG ingredientMissingEnv).errorMessage ≠
        some "ingredient not found" := by
  refine ⟨rfl, rfl, by decide, rfl, rfl, by decide⟩

/-- C2 (amended): `normalizeDrugName` composes `searchDrug` then
`getGenericName`; a null identifier gives status `not_found` with message
`"Drug not found in RxNorm database"`, a found identifier whose ingredient
lookup yields null gives status `not_found` with message
`"Generic name not found for this drug"` (and keeps the identifier), and
two successful lookups give status `success` with both fields populated. -/
theorem C2_amended_composition (name : String) (cfg : RxNormConfig) (env : RemoteEnv) :
    ((searchDrug name cfg env.search).result = .ok none →
        normalizeDrugName name cfg env =
          { originalName := name, genericName := none, rxcui := none
            status := NORMALIZATION_STATUS.NOT_FOUND
            errorMessage := some "Drug not found in RxNorm database" }) ∧
    (∀ rx, (searchDrug name cfg env.search).result = .ok (some rx) → ¬ rx = "" →
        ((getGenericName rx cfg env.related).result = .ok none →
            normalizeDrugName name cfg env =
              { originalName := name, genericName := none, rxcui := some rx
                status := NORMALIZATION_STATUS.NOT_FOUND
                errorMessage := some "Generic name not found for this drug" }) ∧
        (∀ g, (getGenericName rx cfg env.related).result = .ok (some g) → ¬ g = "" →
            normalizeDrugName name cfg env =
              { originalName := name, genericName := some g, rxcui := some rx
                status := NORMALIZATION_STATUS.SUCCESS })) :=
  normalizeDrugName_branches name cfg env

/-- C2 witness for the amended claim, at a not-found environment and at a
fully successful one. -/
theorem C2_amended_witness :
    normalizeDrugName "xyz-not-a-drug" DEFAULT_RXNORM_CONFIG notFoundEnv =
      { originalName := "xyz-not-a-drug", genericName := none, rxcui := none
        status := NORMALIZATION_STATUS.NOT_FOUND
        errorMessage := some "Drug not found in RxNorm database" } ∧
    normalizeDrugName "Tylenol" DEFAULT_RXNORM_CONFIG goodEnv =
      { originalName := "Tylenol", genericName := some "acetaminophen"
        rxcui := some "202433", status := NORMALIZATION_STATUS.SUCCESS } := by
  refine ⟨(C2_amended_composition "xyz-not-a-drug" DEFAULT_RXNORM_CONFIG notFoundEnv).1 rfl, ?_⟩
  exact ((C2_amended_composition "Tylenol" DEFAULT_RXNORM_CONFIG goodEnv).2 "202433" rfl
    (by decide)).2 "acetaminophen" rfl (by decide)

/-- C3: `normalizeDrugName`'s results satisfy: status `success` iff both
`genericName` and `rxcui` are non-null, and a `not_found` or `error` status
implies `genericName` is null. -/
theorem C3_success_iff_populated (name : String) (cfg : RxNormConfig) (env : RemoteEnv) :
    ((normalizeDrugName name cfg env).status = NORMALIZATION_STATUS.SUCCESS ↔
      (∃ g, (normalizeDrugName name cfg env).genericName = some g) ∧
      (∃ x, (normalizeDrugName name cfg env).rxcui = some x)) ∧
    ((normalizeDrugName name cfg env).status = NORMALIZATION_STATUS.NOT_FOUND ∨
      (normalizeDrugName name cfg env).status = NORMALIZATION_STATUS.ERROR →
      (normalizeDrugName name cfg env).genericName = none) := by
  unfold normalizeDrugName
  repeat' split
  all_goals
    simp [NORMALIZATION_STATUS.SUCCESS, NORMALIZATION_STATUS.NOT_FOUND,
      NORMALIZATION_STATUS.ERROR]

/-- C3 witness: the iff's forward direction at a successful run, and the
null-`genericName` consequence at a not-found run. -/
theorem C3_witness :
    ((∃ g, (normalizeDrugName "Tylenol" DEFAULT_RXNORM_CONFIG goodEnv).genericName = some g) ∧
     (∃ x, (normalizeDrugName "Tylenol" DEFAULT_RXNORM_CONFIG goodEnv).rxcui = some x)) ∧
    (normalizeDrugName "xyz-not-a-drug" DEFAULT_RXNORM_CONFIG notFoundEnv).genericName = none := by
  exact ⟨(C3_success_iff_populated "Tylenol" DEFAULT_RXNORM_CONFIG goodEnv).1.mp (by decide),
    (C3_success_iff_populated "xyz-not-a-drug" DEFAULT_RXNORM_CONFIG notFoundEnv).2
      (Or.inl (by decide))⟩

/-- C10: the identifier exposure in `not_found` results is asymmetric —
when the identifier lookup finds no candidate the result's `rxcui` is
null, but when the ingredient lookup yields null for a found identifier
the result's `rxcui` is the resolved identifier itself. -/
theorem C10_notFound_rxcui_asymmetry (name : String) (cfg : RxNormConfig) (env : RemoteEnv) :
    ((searchDrug name cfg env.search).result = .ok none →
        (normalizeDrugName name cfg env).status = NORMALIZATION_STATUS.NOT_FOUND ∧
        (normalizeDrugName name cfg env).rxcui = none) ∧
    (∀ rx, (searchDrug name cfg env.search).result = .ok (some rx) → ¬ rx = "" →
        (getGenericName rx cfg env.related).result = .ok none →
        (normalizeDrugName name cfg env).status = NORMALIZATION_STATUS.NOT_FOUND ∧
        (normalizeDrugName name cfg env).rxcui = some rx) := by
  constructor
  · intro hs
    rw [(normalizeDrugName_branches name cfg env).1 hs]
    exact ⟨rfl, rfl⟩
  · intro rx hs hrx hg
    rw [((normalizeDrugName_branches name cfg env).2 rx hs hrx).1 hg]
    exact ⟨rfl, rfl⟩

/-- C10 witness: `rxcui` is null in the no-candidate case and carries the
identifier in the missing-ingredient case. -/
theorem C10_witness :
    (normalizeDrugName "xyz-not-a-drug" DEFAULT_RXNORM_CONFIG notFoundEnv).rxcui = none ∧
    (normalizeDrugName "Tylenol" DEFAULT_RXNORM_CONFIG ingredientMissingEnv).status =
        NORMALIZATION_STATUS.NOT_FOUND ∧
    (normalizeDrugName "Tylenol" DEFAULT_RXNORM_CONFIG ingredientMissingEnv).rxcui =
        some "202433" := by
  have h1 :=
    (C10_notFound_rxcui_asymmetry "xyz-not-a-drug" DEFAULT_RXNORM_CONFIG notFoundEnv).1 rfl
  have h2 := (C10_notFound_rxcui_asymmetry "Tylenol" DEFAULT_RXNORM_CONFIG
    ingredientMissingEnv).2 "202433" rfl (by decide) rfl
  exact ⟨h1.2, h2.1, h2.2⟩

/-- C4: `normalizeDrugName` is total and classifies every outcome into one
of the three statuses; a classified error raised by either lookup step is
converted into a result with status `error` carrying the underlying error's
message; consequently `normalizeDrugNameBatch` always returns one result
per input — no single item's failure aborts the batch. -/
theorem C4_errors_never_escape (name : String) (cfg : RxNormConfig) (env : RemoteEnv) :
    ((normalizeDrugName name cfg env).status = NORMALIZATION_STATUS.SUCCESS ∨
     (normalizeDrugName name cfg env).status = NORMALIZATION_STATUS.NOT_FOUND ∨
     (normalizeDrugName name cfg env).status = NORMALIZATION_STATUS.ERROR) ∧
    (∀ e, (searchDrug name cfg env.search).result = .error e →
        (normalizeDrugName name cfg env).status = NORMALIZATION_STATUS.ERROR ∧
        (normalizeDrugName name cfg env).errorMessage = some e.message) ∧
    (∀ rx e, (searchDrug name cfg env.search).result = .ok (some rx) → ¬ rx = "" →
        (getGenericName rx cfg env.related).result = .error e →
        (normalizeDrugName name cfg env).status = NORMALIZATION_STATUS.ERROR ∧
        (normalizeDrugName name cfg env).errorMessage = some e.message) ∧
    (∀ (names : List String) (envs : Nat → RemoteEnv),
        (normalizeDrugNameBatch names cfg envs).length = names.length) := by
  refine ⟨?_, ?_, ?_, ?_⟩
  · unfold normalizeDrugName
    repeat' split
    all_goals
      first
        | exact Or.inl rfl
        | exact Or.inr (Or.inl rfl)
        | exact Or.inr (Or.inr rfl)
  · intro e he
    unfold normalizeDrugName
    rw [he]
    exact ⟨rfl, rfl⟩
  · intro rx e hs hrx hg
    unfold normalizeDrugName
    rw [hs]
    dsimp only
    rw [if_neg hrx, hg]
    exact ⟨rfl, rfl⟩
  · intro names envs
    exact normalizeDrugNameBatch_length names cfg envs

/-- C4 witness: a lookup that exhausts its retries is converted into an
`error` result, and a batch over such failures still returns one result
per input. -/
theorem C4_witness :
    (normalizeDrugName "Tylenol" DEFAULT_RXNORM_CONFIG timeoutEnv).status =
        NORMALIZATION_STATUS.ERROR ∧
    (normalizeDrugName "Tylenol" DEFAULT_RXNORM_CONFIG timeoutEnv).errorMessage =
        some "Failed after 3 attempts: Request timeout after 10000ms" ∧
    (normalizeDrugNameBatch ["Tylenol", "Advil", "Advil"] DEFAULT_RXNORM_CONFIG
        (fun _ => timeoutEnv)).length = 3 := by
  have h := C4_errors_never_escape "Tylenol" DEFAULT_RXNORM_CONFIG timeoutEnv
  have he := h.2.1 _ rfl
  exact ⟨he.1, he.2, h.2.2.2 ["Tylenol", "Advil", "Advil"] (fun _ => timeoutEnv)⟩

/-- C5: an attempt failing with a truthy 4xx HTTP status is never retried —
the call fails at that very attempt (in particular a first-attempt 4xx
fails after exactly one attempt) — whereas a retryable failure (5xx,
network error, timeout) followed by a success within the allowed attempts
yields that success. -/
theorem C5_client_error_not_retried {β : Type} (cfg : RxNormConfig)
    (outcomes : Nat → AttemptOutcome β) :
    (∀ k status statusText, 1 ≤ k → k ≤ cfg.retryAttempts →
        (∀ j, 1 ≤ j → j < k → (outcomes j).isRetryableFailure = true) →
        outcomes k = .httpFailure status statusText → 400 ≤ status → status < 500 →
        (fetchWithRetry cfg outcomes).attemptsMade = k ∧
        (fetchWithRetry cfg outcomes).result =
          .error { message := s!"HTTP {status}: {statusText}"
                   code := some "HTTP_ERROR"
                   statusCode := some status }) ∧
    (∀ b, 2 ≤ cfg.retryAttempts → (outcomes 1).isRetryableFailure = true →
        outcomes 2 = .success b →
        (fetchWithRetry cfg outcomes).result = .ok b ∧
        (fetchWithRetry cfg outcomes).attemptsMade = 2) := by
  constructor
  · intro k status statusText hk1 hk2 hpre hk hs1 hs2
    have h := retryGo_clientError_at cfg outcomes cfg.retryAttempts 1 none k hk1
      (by omega) (fun j hj1 hj2 => hpre j hj1 hj2) status statusText hk hs1 hs2
    exact ⟨h.2, h.1⟩
  · intro b hra h1 h2
    have h := retryGo_success_at cfg outcomes cfg.retryAttempts 1 none 2
      (by omega) (by omega)
      (fun j hj1 hj2 => by
        have : j = 1 := by omega
        subst this
        exact h1) b h2
    exact h

/-- C5 witness: a 404 fails at the first attempt with no retry, and a 500
followed by a 200 resolves successfully at the second attempt. -/
theorem C5_witness :
    (fetchWithRetry DEFAULT_RXNORM_CONFIG http404Outcomes).attemptsMade = 1 ∧
    (fetchWithRetry DEFAULT_RXNORM_CONFIG http404Outcomes).result =
      .error { message := "HTTP 404: Not Found", code := some "HTTP_ERROR"
               statusCode := some 404 } ∧
    (fetchWithRetry DEFAULT_RXNORM_CONFIG recoverOutcomes).result = .ok 7 ∧
    (fetchWithRetry DEFAULT_RXNORM_CONFIG recoverOutcomes).attemptsMade = 2 := by
  have h1 := (C5_client_error_not_retried DEFAULT_RXNORM_CONFIG http404Outcomes).1
    1 404 "Not Found" (by decide) (by decide)
    (fun j hj1 hj2 => absurd (lt_of_le_of_lt hj1 hj2) (by decide)) rfl (by decide) (by decide)
  have h2 := (C5_client_error_not_retried DEFAULT_RXNORM_CONFIG recoverOutcomes).2
    7 (by decide) (by decide) rfl
  exact ⟨h1.1, h1.2, h2.1, h2.2⟩

/-- C7: both lookups reject blank inputs up front with an `INVALID_INPUT`
error: `searchDrug` for any name that is empty after trimming, and
`getGenericName` for the empty identifier.  In both cases no remote
attempt is started and no sleep is performed. -/
theorem C7_invalid_input_fails_fast (cfg : RxNormConfig) :
    (∀ (name : String)
        (outcomes : Nat → AttemptOutcome (Except String RxNormApproximateResponse)),
        jsTrim name = "" →
        searchDrug name cfg outcomes =
          { result := .error { message := "Drug name cannot be empty"
                               code := some "INVALID_INPUT" }
            attemptsMade := 0, sleeps := [] }) ∧
    (∀ (outcomes : Nat → AttemptOutcome (Except String RxNormRelatedResponse)),
        getGenericName "" cfg outcomes =
          { result := .error { message := "RxCUI cannot be empty"
                               code := some "INVALID_INPUT" }
            attemptsMade := 0, sleeps := [] }) := by
  constructor
  · intro name outcomes h
    unfold searchDrug
    rw [if_pos (Or.inr h)]
  · intro outcomes
    unfold getGenericName
    rw [if_pos (Or.inl rfl)]

/-- C7 witness: a whitespace-only name and the empty identifier, both
rejected without any attempt. -/
theorem C7_witness :
    searchDrug "   " DEFAULT_RXNORM_CONFIG searchFound =
      { result := .error { message := "Drug name cannot be empty"
                           code := some "INVALID_INPUT" }
        attemptsMade := 0, sleeps := [] } ∧
    getGenericName "" DEFAULT_RXNORM_CONFIG relatedFound =
      { result := .error { message := "RxCUI cannot be empty"
                           code := some "INVALID_INPUT" }
        attemptsMade := 0, sleeps := [] } := by
  exact ⟨(C7_invalid_input_fails_fast DEFAULT_RXNORM_CONFIG).1 "   " searchFound (by decide),
    (C7_invalid_input_fails_fast DEFAULT_RXNORM_CONFIG).2 relatedFound⟩

/-- C6 counterexample: when every attempt of a lookup times out, the
result's `errorMessage` is `"Failed after 3 attempts: Request timeout
after 10000ms"` — the `MAX_RETRIES_EXCEEDED` classification lives in the
error's `code` field and is not part of `errorMessage`, so the message does
not contain the claimed "MaxRetriesExceeded" classification (in either
spelling). -/
theorem C6_counterexample :
    (normalizeDrugName "Tylenol" DEFAULT_RXNORM_CONFIG timeoutEnv).status =
        NORMALIZATION_STATUS.ERROR ∧
    (normalizeDrugName "Tylenol" DEFAULT_RXNORM_CONFIG timeoutEnv).errorMessage =
        some "Failed after 3 attempts: Request timeout after 10000ms" ∧
    ¬ List.IsInfix "MaxRetriesExceeded".data
        "Failed after 3 attempts: Request timeout after 10000ms".data ∧
    ¬ List.IsInfix "MAX_RETRIES_EXCEEDED".data
        "Failed after 3 attempts: Request timeout after 10000ms".data := by
  refine ⟨rfl, rfl, by decide, by decide⟩

/-- C6 (amended): `fetchWithRetry` makes at most `retryAttempts` attempts;
after each attempt `k` that is followed by another it waits exactly
`retryDelay × k` (linear backoff — `1 s` then `2 s` with the defaults —
and no wait after the final attempt); when every attempt fails retryably
the call fails with the `MAX_RETRIES_EXCEEDED` error whose message embeds
the last underlying error's message; and when every remote attempt for a
name times out, `normalizeDrugName` returns status `error` whose
`errorMessage` is that `MAX_RETRIES_EXCEEDED` message, `"Failed after
{retryAttempts} attempts: Request timeout after {timeout}ms"`. -/
theorem C6_amended_retry_schedule {β : Type} (cfg : RxNormConfig)
    (outcomes : Nat → AttemptOutcome β) :
    (fetchWithRetry cfg outcomes).attemptsMade ≤ cfg.retryAttempts ∧
    (fetchWithRetry cfg outcomes).sleeps =
      (List.range' 1 ((fetchWithRetry cfg outcomes).attemptsMade - 1)).map
        (fun k => cfg.retryDelay * k) ∧
    (1 ≤ cfg.retryAttempts →
        (∀ j, 1 ≤ j → j ≤ cfg.retryAttempts → (outcomes j).isRetryableFailure = true) →
        ∀ lastE, (outcomes cfg.retryAttempts).toResult cfg.timeout = .error lastE →
        (fetchWithRetry cfg outcomes).result =
            .error (maxRetriesError cfg.retryAttempts (some lastE)) ∧
        (fetchWithRetry cfg outcomes).attemptsMade = cfg.retryAttempts) ∧
    (∀ (name : String) (env : RemoteEnv) (msg : String),
        1 ≤ cfg.retryAttempts → ¬ (name = "" ∨ jsTrim name = "") →
        (∀ j, env.search j = AttemptOutcome.timeout) →
        msg = s!"Request timeout after {cfg.timeout}ms" →
        ∀ ra, ra = cfg.retryAttempts →
        normalizeDrugName name cfg env =
          { originalName := name, genericName := none, rxcui := none
            status := NORMALIZATION_STATUS.ERROR
            errorMessage := some s!"Failed after {ra} attempts: {msg}" }) := by
  refine ⟨?_, ?_, ?_, ?_⟩
  · have h := retryGo_attemptsMade_le cfg outcomes cfg.retryAttempts 1 none
    unfold fetchWithRetry
    omega
  · exact retryGo_sleeps cfg outcomes cfg.retryAttempts 1 none
  · intro hra hfail lastE hlast
    have h := retryGo_allFail cfg outcomes cfg.retryAttempts 1 none (le_refl 1) hra
      (fun j hj1 hj2 => hfail j hj1 (by omega))
      lastE (by
        have : 1 + cfg.retryAttempts - 1 = cfg.retryAttempts := by omega
        rw [this]
        exact hlast)
    refine ⟨h.1, ?_⟩
    unfold fetchWithRetry
    rw [h.2]
    omega
  · intro name env msg hra hname henv hmsg ra hraeq
    subst hmsg
    subst hraeq
    have hfail : ∀ j, 1 ≤ j → j < 1 + cfg.retryAttempts →
        (env.search j).isRetryableFailure = true := by
      intro j hj1 hj2
      rw [henv j]
      rfl
    have hlast : (env.search (1 + cfg.retryAttempts - 1)).toResult cfg.timeout =
        .error (JSError.rxnorm { message := s!"Request timeout after {cfg.timeout}ms"
                                 code := some "TIMEOUT" }) := by
      rw [henv]
      rfl
    have hall := retryGo_allFail cfg env.search cfg.retryAttempts 1 none (le_refl 1)
      hra hfail _ hlast
    have hsearch : (searchDrug name cfg env.search).result =
        .error { maxRetriesError cfg.retryAttempts
            (some (JSError.rxnorm { message := s!"Request timeout after {cfg.timeout}ms"
                                    code := some "TIMEOUT" })) with
          drugName := some name } := by
      unfold searchDrug
      rw [if_neg hname]
      dsimp only
      rw [show (fetchWithRetry cfg env.search).result =
        .error (maxRetriesError cfg.retryAttempts
          (some (JSError.rxnorm { message := s!"Request timeout after {cfg.timeout}ms"
                                  code := some "TIMEOUT" }))) from hall.1]
    unfold normalizeDrugName
    rw [hsearch]
    rfl

/-- C6 witness: the default configuration against an all-timeout oracle —
two sleeps of 1000 ms and 2000 ms, a `MAX_RETRIES_EXCEEDED` failure after
three attempts, and the corresponding `error` result of `normalizeDrugName`. -/
theorem C6_amended_witness :
    (fetchWithRetry DEFAULT_RXNORM_CONFIG timeoutEnv.search).attemptsMade = 3 ∧
    (fetchWithRetry DEFAULT_RXNORM_CONFIG timeoutEnv.search).sleeps = [1000, 2000] ∧
    (fetchWithRetry DEFAULT_RXNORM_CONFIG timeoutEnv.search).result =
      .error { message := "Failed after 3 attempts: Request timeout after 10000ms"
               code := some "MAX_RETRIES_EXCEEDED" } ∧
    normalizeDrugName "Tylenol" DEFAULT_RXNORM_CONFIG timeoutEnv =
      { originalName := "Tylenol", genericName := none, rxcui := none
        status := NORMALIZATION_STATUS.ERROR
        errorMessage := some "Failed after 3 attempts: Request timeout after 10000ms" } := by
  have h := C6_amended_retry_schedule DEFAULT_RXNORM_CONFIG timeoutEnv.search
  have hc := h.2.2.1 (by decide) (fun j hj1 hj2 => rfl)
    (JSError.rxnorm { message := "Request timeout after 10000ms", code := some "TIMEOUT" }) rfl
  refine ⟨hc.2, ?_, ?_, ?_⟩
  · rw [h.2.1, hc.2]
    rfl
  · exact hc.1
  · exact h.2.2.2 "Tylenol" timeoutEnv "Request timeout after 10000ms" (by decide)
      (by decide) (fun j => rfl) rfl 3 rfl

/-- Indexing a mapped list below its length applies the function to the
indexed element. -/
theorem getD_map_of_lt {α β : Type} (f : α → β) (l : List α) (i : Nat) (d : β) (d' : α)
    (h : i < l.length) : (l.map f).getD i d = f (l.getD i d') := by
  induction l generalizing i with
  | nil => simp at h
  | cons a t ih =>
      cases i with
      | zero => rfl
      | succ j =>
          simp only [List.map_cons, List.getD_cons_succ]
          exact ih j (by simpa using h)

/-- C9 counterexample: for a row whose designated column trims to the empty
string and a map that carries an entry for the empty-string key, the added
`GENERIC_NAME` field is that entry rather than the claimed `"NOT_FOUND"`
sentinel. -/
theorem C9_counterexample :
    jsTrim (csvValueToString (rowBlankDrug "DRUG")) = "" ∧
    (addGenericNameColumn [rowBlankDrug] "DRUG" emptyKeyMap).map
        (fun r => r GENERIC_NAME_COLUMN) = [some (CSVValue.str "phantom")] ∧
    "phantom" ≠ "NOT_FOUND" := by
  refine ⟨by decide, ?_, by decide⟩
  rfl

/-- C9 (amended): `addGenericNameColumn` returns one output row per input
row, in order; every field other than `GENERIC_NAME` is unchanged; and
`GENERIC_NAME` is the map's entry for the trimmed stringification of the
designated column's value (absent, null and zero values stringify to the
empty string), with the `"NOT_FOUND"` sentinel assigned exactly when the
map has no entry for that key or its entry is the empty string. -/
theorem C9_amended_join (rows : List CSVRow) (columnName : String)
    (genericNames : String → Option String) :
    (addGenericNameColumn rows columnName genericNames).length = rows.length ∧
    (∀ i, i < rows.length →
      (∀ key, ¬ key = GENERIC_NAME_COLUMN →
        ((addGenericNameColumn rows columnName genericNames).getD i emptyRow) key =
          (rows.getD i emptyRow) key) ∧
      ((addGenericNameColumn rows columnName genericNames).getD i emptyRow)
          GENERIC_NAME_COLUMN =
        some (.str (lookupGeneric genericNames
          (jsTrim (csvValueToString ((rows.getD i emptyRow) columnName)))))) := by
  constructor
  · simp [addGenericNameColumn]
  · intro i hi
    constructor
    · intro key hk
      unfold addGenericNameColumn
      rw [getD_map_of_lt _ rows i emptyRow emptyRow hi]
      exact if_neg hk
    · unfold addGenericNameColumn
      rw [getD_map_of_lt _ rows i emptyRow emptyRow hi]
      exact if_pos rfl

/-- C9 witness for the amended claim: one row, frame fields preserved,
and the `GENERIC_NAME` value given by the falsiness-aware lookup. -/
theorem C9_amended_witness :
    (addGenericNameColumn [rowBlankDrug] "DRUG" emptyKeyMap).length = 1 ∧
    ((addGenericNameColumn [rowBlankDrug] "DRUG" emptyKeyMap).getD 0 emptyRow) "DRUG" =
      some (CSVValue.str " ") ∧
    ((addGenericNameColumn [rowBlankDrug] "DRUG" emptyKeyMap).getD 0 emptyRow)
        GENERIC_NAME_COLUMN = some (CSVValue.str "phantom") := by
  have h := C9_amended_join [rowBlankDrug] "DRUG" emptyKeyMap
  refine ⟨h.1, ?_, ?_⟩
  · rw [(h.2 0 (by decide)).1 "DRUG" (by decide)]
    rfl
  · rw [(h.2 0 (by decide)).2]
    rfl

end DrugNormalizer
